import Mathlib

/-!
Verification of the privacy-policy-chatbot service (main.py).

The service exposes a POST endpoint generate_policy that validates a JSON
body, builds a natural-language prompt via create_privacy_policy_prompt,
invokes an external text-generation provider, and relays the generated text
or a structured error. The definitions below are a shallow embedding of
main.py: Python dicts decoded from JSON become association lists from keys
to JsonValue, Python truthiness becomes JsonValue.isTruthy, f-string
interpolation of a value becomes pyStr, and the external provider becomes
an explicit function argument from the prompt text to a ProviderResult.
JSON numbers are modelled as integers (no claim involves non-integer
numeric fields), and the Python repr of container elements is reproduced
without quote-escaping inside strings (no claim renders containers).
-/

/-- A JSON value as produced by decoding the POST body (main.py line 105). -/
inductive JsonValue where
  | null
  | bool (b : Bool)
  | num (n : Int)
  | str (s : String)
  | arr (xs : List JsonValue)
  | obj (fields : List (String × JsonValue))

/-- Python truthiness of a decoded JSON value: None, False, 0, the empty
string, the empty list and the empty dict are falsy, everything else is
truthy. Used by the validation at main.py line 109 and the jurisdiction
test at line 79. -/
def JsonValue.isTruthy : JsonValue → Bool
  | .null => false
  | .bool b => b
  | .num n => n != 0
  | .str s => s != ""
  | .arr xs => !xs.isEmpty
  | .obj fields => !fields.isEmpty

mutual

/-- Python repr of a decoded JSON value, as used for the elements of a
list or dict when one is converted to text. String quote-escaping is not
reproduced. -/
def pyRepr : JsonValue → String
  | .null => "None"
  | .bool true => "True"
  | .bool false => "False"
  | .num n => toString n
  | .str s => "\x27" ++ s ++ "\x27"
  | .arr xs => "[" ++ String.intercalate ", " (pyReprList xs) ++ "]"
  | .obj fields => "\x7b" ++ String.intercalate ", " (pyReprFields fields) ++ "\x7d"

/-- Reprs of the elements of a JSON array. -/
def pyReprList : List JsonValue → List String
  | [] => []
  | v :: vs => pyRepr v :: pyReprList vs

/-- Reprs of the key-value pairs of a JSON object. -/
def pyReprFields : List (String × JsonValue) → List String
  | [] => []
  | (k, v) :: kvs => ("\x27" ++ k ++ "\x27: " ++ pyRepr v) :: pyReprFields kvs

end

/-- Python str of a decoded JSON value, as applied by f-string
interpolation in create_privacy_policy_prompt (main.py lines 61-80). -/
def pyStr : JsonValue → String
  | .str s => s
  | v => pyRepr v

/-- Embedding of details.get(key, default) followed by f-string conversion
to text (main.py lines 50-58): the str of the stored value when the key is
present, the default string otherwise. -/
def fieldOrDefault (details : List (String × JsonValue)) (key dflt : String) : String :=
  match List.lookup key details with
  | some v => pyStr v
  | none => dflt

/-- Embedding of details.get at main.py line 59: the stored jurisdiction
value when present, the empty string otherwise. Its truthiness, not its
text, decides whether the jurisdiction line is appended (line 79). -/
def jurisdictionValue (details : List (String × JsonValue)) : JsonValue :=
  (List.lookup "jurisdiction" details).getD (JsonValue.str "")

/-- The initial prompt f-string of main.py lines 61-78, with the local
variables of lines 50-58 inlined via fieldOrDefault. Whitespace is exact:
each source line carries a four-space indent and the block ends in a
newline plus four spaces. -/
def serviceDetailsBlock (details : List (String × JsonValue)) : String :=
  "\n    Act as a helpful assistant specialized in drafting website and application documents.\n    Generate a comprehensive draft privacy policy based on the following details provided by the user.\n    The policy should be clear, easy for end-users to understand, and cover common requirements.\n    Include sections like: Introduction, Information We Collect, How We Use Your Information, Sharing Your Information, Data Security, Your Rights and Choices, Cookie Policy, Changes to This Policy, and Contact Us.\n    Emphasize that this is a generated template and should be reviewed by a legal professional before publishing.\n\n    **Service Details:**\n    *   **Company/Service Name:** "
  ++ fieldOrDefault details "company_name" "Your Company"
  ++ "\n    *   **Website/App URL:** "
  ++ fieldOrDefault details "website_url" "Your Website/App URL"
  ++ "\n    *   **Types of Personal Data Collected:** "
  ++ fieldOrDefault details "data_collected" "e.g., names, email addresses, IP addresses, cookies, usage data"
  ++ "\n    *   **How Data is Used:** "
  ++ fieldOrDefault details "data_usage" "e.g., service provision, personalization, analytics, marketing"
  ++ "\n    *   **Data Sharing Practices (Third Parties):** "
  ++ fieldOrDefault details "data_sharing" "Specify if data is shared and with whom (e.g., analytics providers, payment processors)"
  ++ "\n    *   **Data Security Measures:** "
  ++ fieldOrDefault details "security_measures" "Describe general security practices (e.g., encryption, access controls)"
  ++ "\n    *   **User Rights (e.g., access, deletion):** "
  ++ fieldOrDefault details "user_rights" "Mention user rights like access, correction, deletion, opt-out"
  ++ "\n    *   **Cookie Usage:** "
  ++ fieldOrDefault details "cookie_usage" "Explain if cookies are used and for what purpose"
  ++ "\n    *   **Contact Email for Privacy Concerns:** "
  ++ fieldOrDefault details "contact_email" "your privacy contact email"
  ++ "\n    "

/-- The jurisdiction line conditionally appended at main.py line 80, given
the interpolated jurisdiction text. -/
def jurisdictionLine (jurisdiction : String) : String :=
  "*   **Primary Jurisdiction (if specified):** " ++ jurisdiction
  ++ " (Consider mentioning relevant laws like GDPR or CCPA if applicable, but advise legal review)\n"

/-- The fixed generation-instructions block appended at main.py lines 82-89. -/
def instructionsBlock : String :=
  "\n    **Instructions for Generation:**\n    1.  Generate only the text content of the privacy policy.\n    2.  Use clear headings for each section.\n    3.  Maintain a professional but understandable tone.\n    4.  Include a prominent disclaimer stating this is a template and requires legal review for compliance and accuracy specific to the user\x27s situation and jurisdiction.\n    5.  Do not add any conversational text before or after the policy itself (like \"Here is the policy:\" or \"I hope this helps!\").\n    "

/-- Embedding of create_privacy_policy_prompt (main.py lines 46-90): the
details block, then the jurisdiction line exactly when the raw jurisdiction
value is truthy, then the instructions block. -/
def create_privacy_policy_prompt (details : List (String × JsonValue)) : String :=
  let prompt := serviceDetailsBlock details
  let prompt :=
    if (jurisdictionValue details).isTruthy then
      prompt ++ jurisdictionLine (pyStr (jurisdictionValue details))
    else
      prompt
  prompt ++ instructionsBlock

/-- The required_fields list of main.py line 108. -/
def required_fields : List String :=
  ["company_name", "website_url", "data_collected", "data_usage", "contact_email"]

/-- Whether a key is present in the body with a truthy value; the negation
of the per-field condition of the comprehension at main.py line 109. -/
def fieldTruthy (data : List (String × JsonValue)) (key : String) : Bool :=
  match List.lookup key data with
  | some v => v.isTruthy
  | none => false

/-- The missing_fields comprehension of main.py line 109: required fields
that are absent from the body or bound to a falsy value. -/
def missing_fields (data : List (String × JsonValue)) : List String :=
  required_fields.filter (fun f => !fieldTruthy data f)

/-- An HTTP response as produced by jsonify(...) plus a status code: every
body the endpoint produces is a one-key JSON object of a string. -/
structure HttpResponse where
  status : Nat
  body : List (String × String)

/-- The POST body as the endpoint sees it: either not parseable as JSON
(main.py line 102) or a decoded JSON object. -/
inductive RequestBody where
  | notJson
  | json (data : List (String × JsonValue))

/-- Outcome of one model.generate_content call plus the response.text
extraction (main.py lines 126-131). In `error desc feedback`, `desc` is the
str of the raised exception; `feedback` is some reason exactly when a
response object was bound, is truthy, and reading its prompt_feedback
succeeds with a truthy value (main.py line 141) — in every other case,
including the inspection itself raising, the bare except at line 144
swallows the secondary failure and `feedback` is none. -/
inductive ProviderResult where
  | text (t : String)
  | error (desc : String) (feedback : Option String)

/-- Result of one request to the endpoint: the HTTP response, the prompt
constructed for the provider if any (main.py line 114), and whether the
provider was invoked (line 126). The provider is invoked at most once; no
retry exists in the handler. -/
structure Outcome where
  response : HttpResponse
  promptBuilt : Option String
  providerCalled : Bool

/-- Embedding of the generate_policy endpoint (main.py lines 94-146).
`model?` is the module-level model handle, none when startup failed to
produce one; a present handle is the provider as a function from the prompt
text to the result of the generate_content call. -/
def generate_policy (model? : Option (String → ProviderResult))
    (body : RequestBody) : Outcome :=
  match model? with
  | none =>
    ⟨⟨500, [("error", "Gemini model not initialized. Check API key and logs.")]⟩, none, false⟩
  | some model =>
    match body with
    | .notJson => ⟨⟨400, [("error", "Request must be JSON")]⟩, none, false⟩
    | .json data =>
      if missing_fields data ≠ [] then
        ⟨⟨400, [("error", "Missing required fields: "
          ++ String.intercalate ", " (missing_fields data))]⟩, none, false⟩
      else
        let prompt := create_privacy_policy_prompt data
        match model prompt with
        | .text t => ⟨⟨200, [("privacy_policy", t)]⟩, some prompt, true⟩
        | .error desc feedback =>
          match feedback with
          | some reason =>
            ⟨⟨500, [("error", "Failed to generate policy. The prompt might have been blocked. Reason: "
              ++ reason)]⟩, some prompt, true⟩
          | none =>
            ⟨⟨500, [("error", "An error occurred while generating the policy: "
              ++ desc)]⟩, some prompt, true⟩

/-- One string occurs inside another: the containment predicate used to
state which fragments the constructed prompt carries. -/
def ContainsStr (s pat : String) : Prop :=
  ∃ pre post, s = pre ++ pat ++ post

/-- Whether a decoded JSON value is a string. -/
def isStringValue : JsonValue → Bool
  | .str _ => true
  | _ => false

/-- Whether a decoded JSON value is the empty string. -/
def isEmptyStringValue : JsonValue → Bool
  | .str s => s == ""
  | _ => false

/-- Scoping condition for the explicit validation claim: every required
field that is present in the body holds a string value. Bodies with
non-string required values are covered by the separate falsy-value claim. -/
def requiredValuesAreStrings (data : List (String × JsonValue)) : Bool :=
  data.all (fun kv => !(required_fields.contains kv.1) || isStringValue kv.2)

/-- Modelled from the claim wording, for comparison with missing_fields: a
required field counts as missing when it is absent from the body or
supplied as the empty string. -/
def missingPerSpec (data : List (String × JsonValue)) : List String :=
  required_fields.filter (fun f =>
    match List.lookup f data with
    | none => true
    | some v => isEmptyStringValue v)

/-- A valid body carrying exactly the five required fields, echoing the
payload of test_client.py. -/
def exampleData : List (String × JsonValue) :=
  [("company_name", JsonValue.str "My Test App"),
   ("website_url", JsonValue.str "https://test.com"),
   ("data_collected", JsonValue.str "Emails, Names"),
   ("data_usage", JsonValue.str "Sending newsletters"),
   ("contact_email", JsonValue.str "privacy@test.com")]

/-- A body with one required field empty and three absent. -/
def exampleMissingData : List (String × JsonValue) :=
  [("company_name", JsonValue.str "My Test App"),
   ("website_url", JsonValue.str "")]

/-- A body supplying a required field as JSON null. -/
def exampleNullData : List (String × JsonValue) :=
  [("company_name", JsonValue.null),
   ("website_url", JsonValue.str "https://test.com")]

/-- A valid body that also supplies a non-empty jurisdiction. -/
def exampleJurisdictionData : List (String × JsonValue) :=
  [("company_name", JsonValue.str "My Test App"),
   ("website_url", JsonValue.str "https://test.com"),
   ("data_collected", JsonValue.str "Emails, Names"),
   ("data_usage", JsonValue.str "Sending newsletters"),
   ("contact_email", JsonValue.str "privacy@test.com"),
   ("jurisdiction", JsonValue.str "California")]

/-- A valid body that supplies every optional field as the empty string. -/
def exampleEmptyOptionalData : List (String × JsonValue) :=
  [("company_name", JsonValue.str "My Test App"),
   ("website_url", JsonValue.str "https://test.com"),
   ("data_collected", JsonValue.str "Emails, Names"),
   ("data_usage", JsonValue.str "Sending newsletters"),
   ("contact_email", JsonValue.str "privacy@test.com"),
   ("data_sharing", JsonValue.str ""),
   ("security_measures", JsonValue.str ""),
   ("user_rights", JsonValue.str ""),
   ("cookie_usage", JsonValue.str ""),
   ("jurisdiction", JsonValue.str "")]

/-- A provider that answers every prompt with a fixed generated text. -/
def sampleProvider : String → ProviderResult :=
  fun _ => ProviderResult.text "SAMPLE POLICY TEXT"

/-- A provider whose call raises with no retrievable prompt feedback. -/
def failingProvider : String → ProviderResult :=
  fun _ => ProviderResult.error "Deadline Exceeded" none

/-- A provider whose call raises and whose response carries truthy prompt
feedback. -/
def blockedProvider : String → ProviderResult :=
  fun _ => ProviderResult.error "Invalid operation" (some "block_reason: SAFETY")

/-- Containment is preserved by appending on the right. -/
theorem ContainsStr.grow {s pat : String} (t : String) (h : ContainsStr s pat) :
    ContainsStr (s ++ t) pat := by
  obtain ⟨pre, post, rfl⟩ := h
  exact ⟨pre, post ++ t, by simp [String.append_assoc]⟩

/-- Containment is preserved by prepending on the left. -/
theorem ContainsStr.skip {t pat : String} (s : String) (h : ContainsStr t pat) :
    ContainsStr (s ++ t) pat := by
  obtain ⟨pre, post, rfl⟩ := h
  exact ⟨s ++ pre, post, by simp [String.append_assoc]⟩

/-- A string contains its own prefix. -/
theorem ContainsStr.here (pat t : String) : ContainsStr (pat ++ t) pat :=
  ⟨"", t, by simp⟩

/-- A successful lookup returns a pair of the list. -/
theorem lookup_mem :
    ∀ {data : List (String × JsonValue)} {k : String} {v : JsonValue},
      List.lookup k data = some v → (k, v) ∈ data
  | [], _, _, h => by simp [List.lookup] at h
  | (k1, v1) :: rest, k, v, h => by
    rw [List.lookup] at h
    cases hk : k == k1
    · rw [hk] at h
      exact List.mem_cons_of_mem _ (lookup_mem h)
    · rw [hk] at h
      simp only [Option.some.injEq] at h
      subst h
      have hkk : k = k1 := eq_of_beq hk
      subst hkk
      exact List.mem_cons_self _ _

/-- When every present required value is a string, the validation of
main.py line 109 computes exactly the fields that are absent or the empty
string. -/
theorem missing_fields_eq_missingPerSpec {data : List (String × JsonValue)}
    (h : requiredValuesAreStrings data = true) :
    missing_fields data = missingPerSpec data := by
  unfold missing_fields missingPerSpec
  refine List.filter_congr ?_
  intro f hf
  cases hl : List.lookup f data with
  | none => simp [fieldTruthy, hl]
  | some v =>
    have hmem := lookup_mem hl
    have hall := List.all_eq_true.mp h _ hmem
    have hcont : required_fields.contains f = true := by
      simpa using hf
    simp only [hcont, Bool.not_true, Bool.false_or] at hall
    obtain ⟨s, rfl⟩ : ∃ s, v = JsonValue.str s := by
      cases v <;> simp_all [isStringValue]
    simp [fieldTruthy, hl, JsonValue.isTruthy, isEmptyStringValue, bne]

/-- C1: a POST whose JSON body misses one or more of the five required
fields (an empty-string value counting as missing) is answered with HTTP
400 whose error body lists exactly the missing field names joined by a
comma and space, and no prompt is constructed and no provider call is
made. The hypothesis requiredValuesAreStrings scopes the claim to bodies
whose present required values are strings; non-string falsy values are the
subject of the separate implicit claim C9. -/
theorem generate_policy_missing_fields_rejected
    (m : String → ProviderResult) (data : List (String × JsonValue))
    (hstr : requiredValuesAreStrings data = true)
    (hmiss : missingPerSpec data ≠ []) :
    generate_policy (some m) (.json data) =
      ⟨⟨400, [("error", "Missing required fields: "
        ++ String.intercalate ", " (missingPerSpec data))]⟩, none, false⟩ := by
  have he := missing_fields_eq_missingPerSpec hstr
  simp only [generate_policy, he]
  rw [if_pos hmiss]

/-- Witness for C1 at a concrete body with one empty and three absent
required fields. -/
theorem generate_policy_missing_fields_rejected_witness :
    requiredValuesAreStrings exampleMissingData = true ∧
    missingPerSpec exampleMissingData ≠ [] ∧
    generate_policy (some sampleProvider) (.json exampleMissingData) =
      ⟨⟨400, [("error",
        "Missing required fields: website_url, data_collected, data_usage, contact_email")]⟩,
        none, false⟩ :=
  ⟨rfl, by decide,
    (generate_policy_missing_fields_rejected sampleProvider exampleMissingData rfl
      (by decide)).trans rfl⟩

/-- C3: with a model handle present, a POST whose body is not parseable as
JSON is answered with HTTP 400 and the exact body error = Request must be
JSON, with no prompt constructed and no provider call. -/
theorem generate_policy_not_json_rejected (m : String → ProviderResult) :
    generate_policy (some m) RequestBody.notJson =
      ⟨⟨400, [("error", "Request must be JSON")]⟩, none, false⟩ := rfl

/-- C4: when no model handle exists, every POST, whatever its body
(unparseable bodies included, so before JSON parsing and field
validation), is answered with HTTP 500 and the fixed initialization error,
and no provider call is attempted. -/
theorem generate_policy_no_model_500 (body : RequestBody) :
    generate_policy none body =
      ⟨⟨500, [("error", "Gemini model not initialized. Check API key and logs.")]⟩,
        none, false⟩ := rfl

/-- C9: the validation of main.py line 109 uses Python truthiness, so a
required field supplied as null, false, 0, the empty array or the empty
object is counted among the missing fields and the request is answered
with HTTP 400, with no prompt constructed and no provider call. -/
theorem generate_policy_falsy_required_field_rejected
    (m : String → ProviderResult) (data : List (String × JsonValue))
    (f : String) (v : JsonValue)
    (hf : f ∈ required_fields)
    (hl : List.lookup f data = some v)
    (hv : v = JsonValue.null ∨ v = JsonValue.bool false ∨ v = JsonValue.num 0 ∨
          v = JsonValue.arr [] ∨ v = JsonValue.obj []) :
    f ∈ missing_fields data ∧
    (generate_policy (some m) (.json data)).response.status = 400 ∧
    (generate_policy (some m) (.json data)).providerCalled = false ∧
    (generate_policy (some m) (.json data)).promptBuilt = none := by
  have ht : v.isTruthy = false := by
    rcases hv with rfl | rfl | rfl | rfl | rfl <;> decide
  have hmem : f ∈ missing_fields data := by
    unfold missing_fields
    exact List.mem_filter.mpr ⟨hf, by simp [fieldTruthy, hl, ht]⟩
  have hne : missing_fields data ≠ [] := List.ne_nil_of_mem hmem
  refine ⟨hmem, ?_, ?_, ?_⟩ <;>
    · simp only [generate_policy]
      rw [if_pos hne]

/-- Witness for C9 at a body whose company_name is JSON null. -/
theorem generate_policy_falsy_required_field_rejected_witness :
    "company_name" ∈ required_fields ∧
    List.lookup "company_name" exampleNullData = some JsonValue.null ∧
    "company_name" ∈ missing_fields exampleNullData ∧
    (generate_policy (some sampleProvider) (.json exampleNullData)).response.status = 400 ∧
    (generate_policy (some sampleProvider) (.json exampleNullData)).providerCalled = false ∧
    (generate_policy (some sampleProvider) (.json exampleNullData)).promptBuilt = none := by
  have h := generate_policy_falsy_required_field_rejected sampleProvider exampleNullData
    "company_name" JsonValue.null (by decide) rfl (Or.inl rfl)
  exact ⟨by decide, rfl, h.1, h.2.1, h.2.2.1, h.2.2.2⟩

/-- C2: given a model handle, a JSON body that passes required-field
validation, and a provider call returning text T, the endpoint answers
HTTP 200 with body exactly privacy_policy = T, the provider text verbatim. -/
theorem generate_policy_success_relays_text
    (m : String → ProviderResult) (data : List (String × JsonValue)) (T : String)
    (hvalid : missing_fields data = [])
    (hm : m (create_privacy_policy_prompt data) = ProviderResult.text T) :
    generate_policy (some m) (.json data) =
      ⟨⟨200, [("privacy_policy", T)]⟩, some (create_privacy_policy_prompt data), true⟩ := by
  simp only [generate_policy, hvalid]
  rw [if_neg (by simp)]
  simp only [hm]

/-- Witness for C2 at a concrete valid body and a provider answering
SAMPLE POLICY TEXT. -/
theorem generate_policy_success_relays_text_witness :
    missing_fields exampleData = [] ∧
    generate_policy (some sampleProvider) (.json exampleData) =
      ⟨⟨200, [("privacy_policy", "SAMPLE POLICY TEXT")]⟩,
        some (create_privacy_policy_prompt exampleData), true⟩ :=
  ⟨rfl, generate_policy_success_relays_text sampleProvider exampleData
    "SAMPLE POLICY TEXT" rfl rfl⟩

/-- C5: when the provider call (or the text extraction) raises, the
endpoint answers HTTP 500: with the blocked-prompt message carrying the
feedback reason when a truthy reason was retrievable, and otherwise with
the generic message carrying the description of the raised error — a
failure of the feedback inspection itself is folded into the latter case
(feedback none), and the provider is invoked exactly once, with no retry
(the single model application in generate_policy). -/
theorem generate_policy_provider_error_500
    (m : String → ProviderResult) (data : List (String × JsonValue))
    (desc : String) (feedback : Option String)
    (hvalid : missing_fields data = [])
    (hm : m (create_privacy_policy_prompt data) = ProviderResult.error desc feedback) :
    (∀ reason, feedback = some reason →
      generate_policy (some m) (.json data) =
        ⟨⟨500, [("error",
          "Failed to generate policy. The prompt might have been blocked. Reason: "
          ++ reason)]⟩, some (create_privacy_policy_prompt data), true⟩) ∧
    (feedback = none →
      generate_policy (some m) (.json data) =
        ⟨⟨500, [("error", "An error occurred while generating the policy: "
          ++ desc)]⟩, some (create_privacy_policy_prompt data), true⟩) := by
  constructor
  · intro reason hr
    subst hr
    simp only [generate_policy, hvalid]
    rw [if_neg (by simp)]
    simp only [hm]
  · intro hr
    subst hr
    simp only [generate_policy, hvalid]
    rw [if_neg (by simp)]
    simp only [hm]

/-- Witness for C5 at a concrete valid body, exercising both the
blocked-prompt branch and the generic branch. -/
theorem generate_policy_provider_error_500_witness :
    missing_fields exampleData = [] ∧
    generate_policy (some blockedProvider) (.json exampleData) =
      ⟨⟨500, [("error",
        "Failed to generate policy. The prompt might have been blocked. Reason: block_reason: SAFETY")]⟩,
        some (create_privacy_policy_prompt exampleData), true⟩ ∧
    generate_policy (some failingProvider) (.json exampleData) =
      ⟨⟨500, [("error",
        "An error occurred while generating the policy: Deadline Exceeded")]⟩,
        some (create_privacy_policy_prompt exampleData), true⟩ :=
  ⟨rfl,
    ((generate_policy_provider_error_500 blockedProvider exampleData
      "Invalid operation" (some "block_reason: SAFETY") rfl rfl).1
      "block_reason: SAFETY" rfl).trans rfl,
    ((generate_policy_provider_error_500 failingProvider exampleData
      "Deadline Exceeded" none rfl rfl).2 rfl).trans rfl⟩

/-- Containment in the details block lifts to the full prompt, whatever
the jurisdiction branch does. -/
theorem containsStr_create_of_details {data : List (String × JsonValue)} {pat : String}
    (h : ContainsStr (serviceDetailsBlock data) pat) :
    ContainsStr (create_privacy_policy_prompt data) pat := by
  simp only [create_privacy_policy_prompt]
  cases hj : (jurisdictionValue data).isTruthy
  · rw [if_neg Bool.false_ne_true]
    exact h.grow _
  · rw [if_pos rfl]
    exact (h.grow _).grow _

/-- C6: on an input supplying the five required fields and omitting the
optional ones, the constructed prompt contains the documented placeholder
text of each of the four omitted optional free-text fields, and the
jurisdiction line is entirely absent: the prompt is exactly the details
block followed by the instructions block, with nothing in between. -/
theorem create_prompt_defaults_when_optional_absent
    (data : List (String × JsonValue))
    (h1 : List.lookup "data_sharing" data = none)
    (h2 : List.lookup "security_measures" data = none)
    (h3 : List.lookup "user_rights" data = none)
    (h4 : List.lookup "cookie_usage" data = none)
    (h5 : List.lookup "jurisdiction" data = none) :
    ContainsStr (create_privacy_policy_prompt data)
      "Specify if data is shared and with whom (e.g., analytics providers, payment processors)" ∧
    ContainsStr (create_privacy_policy_prompt data)
      "Describe general security practices (e.g., encryption, access controls)" ∧
    ContainsStr (create_privacy_policy_prompt data)
      "Mention user rights like access, correction, deletion, opt-out" ∧
    ContainsStr (create_privacy_policy_prompt data)
      "Explain if cookies are used and for what purpose" ∧
    create_privacy_policy_prompt data = serviceDetailsBlock data ++ instructionsBlock := by
  have hj : create_privacy_policy_prompt data
      = serviceDetailsBlock data ++ instructionsBlock := by
    simp only [create_privacy_policy_prompt, jurisdictionValue, h5, Option.getD_none]
    rw [if_neg (by simp [JsonValue.isTruthy])]
  refine ⟨?_, ?_, ?_, ?_, hj⟩ <;>
  · rw [hj]
    simp only [serviceDetailsBlock, fieldOrDefault, h1, h2, h3, h4, String.append_assoc]
    repeat first
      | exact ContainsStr.here _ _
      | apply ContainsStr.skip

/-- Witness for C6 at a concrete body carrying only the required fields. -/
theorem create_prompt_defaults_when_optional_absent_witness :
    ContainsStr (create_privacy_policy_prompt exampleData)
      "Specify if data is shared and with whom (e.g., analytics providers, payment processors)" ∧
    ContainsStr (create_privacy_policy_prompt exampleData)
      "Describe general security practices (e.g., encryption, access controls)" ∧
    ContainsStr (create_privacy_policy_prompt exampleData)
      "Mention user rights like access, correction, deletion, opt-out" ∧
    ContainsStr (create_privacy_policy_prompt exampleData)
      "Explain if cookies are used and for what purpose" ∧
    create_privacy_policy_prompt exampleData
      = serviceDetailsBlock exampleData ++ instructionsBlock :=
  create_prompt_defaults_when_optional_absent exampleData rfl rfl rfl rfl rfl

/-- C7: when the raw jurisdiction value is truthy (in particular any
non-empty string), the prompt is the details block, then a line naming the
interpolated jurisdiction and referencing relevant regional law with GDPR
and CCPA as examples, then the instructions block; when it is falsy (the
empty string, or absent, which defaults to the empty string), the prompt
is exactly the details block followed by the instructions block, so the
jurisdiction line is entirely absent rather than present with empty
content. -/
theorem create_prompt_jurisdiction_conditional (data : List (String × JsonValue)) :
    ((jurisdictionValue data).isTruthy = true →
      create_privacy_policy_prompt data =
        serviceDetailsBlock data ++ jurisdictionLine (pyStr (jurisdictionValue data))
          ++ instructionsBlock ∧
      ContainsStr (jurisdictionLine (pyStr (jurisdictionValue data)))
        (pyStr (jurisdictionValue data)) ∧
      ContainsStr (jurisdictionLine (pyStr (jurisdictionValue data))) "GDPR or CCPA") ∧
    ((jurisdictionValue data).isTruthy = false →
      create_privacy_policy_prompt data = serviceDetailsBlock data ++ instructionsBlock) := by
  constructor
  · intro h
    refine ⟨?_, ?_, ?_⟩
    · simp only [create_privacy_policy_prompt]
      rw [if_pos h]
    · exact ⟨"*   **Primary Jurisdiction (if specified):** ",
        " (Consider mentioning relevant laws like GDPR or CCPA if applicable, but advise legal review)\n",
        rfl⟩
    · unfold jurisdictionLine
      apply ContainsStr.skip
      exact ⟨" (Consider mentioning relevant laws like ",
        " if applicable, but advise legal review)\n", by decide⟩
  · intro h
    simp only [create_privacy_policy_prompt, h]
    rw [if_neg Bool.false_ne_true]

/-- Witness for C7: a body with jurisdiction California takes the first
branch, a body without jurisdiction takes the second. -/
theorem create_prompt_jurisdiction_conditional_witness :
    (jurisdictionValue exampleJurisdictionData).isTruthy = true ∧
    create_privacy_policy_prompt exampleJurisdictionData =
      serviceDetailsBlock exampleJurisdictionData ++ jurisdictionLine "California"
        ++ instructionsBlock ∧
    ContainsStr (jurisdictionLine "California") "California" ∧
    ContainsStr (jurisdictionLine "California") "GDPR or CCPA" ∧
    (jurisdictionValue exampleData).isTruthy = false ∧
    create_privacy_policy_prompt exampleData
      = serviceDetailsBlock exampleData ++ instructionsBlock := by
  have h1 := (create_prompt_jurisdiction_conditional exampleJurisdictionData).1 (by decide)
  have h2 := (create_prompt_jurisdiction_conditional exampleData).2 (by decide)
  exact ⟨by decide, h1.1, h1.2.1, h1.2.2, by decide, h2⟩

/-- C8: prompt construction is a pure function of its input, so identical
inputs produce byte-identical prompt text, with no dependence on time,
randomness or hidden state. -/
theorem create_prompt_deterministic (d1 d2 : List (String × JsonValue)) (h : d1 = d2) :
    create_privacy_policy_prompt d1 = create_privacy_policy_prompt d2 :=
  congrArg create_privacy_policy_prompt h

/-- Witness for C8 at a concrete input. -/
theorem create_prompt_deterministic_witness :
    create_privacy_policy_prompt exampleData = create_privacy_policy_prompt exampleData :=
  create_prompt_deterministic exampleData exampleData rfl

/-- C10: the default placeholder of the optional free-text fields is
substituted only when the key is absent; a field supplied as the empty
string interpolates the empty string itself, so each label of the Service
Details block is immediately followed by the next line, and the five
labels form one contiguous run of the prompt; only jurisdiction treats the
empty string like absence, appending no line. -/
theorem create_prompt_empty_optional_interpolated
    (data : List (String × JsonValue))
    (h1 : List.lookup "data_sharing" data = some (JsonValue.str ""))
    (h2 : List.lookup "security_measures" data = some (JsonValue.str ""))
    (h3 : List.lookup "user_rights" data = some (JsonValue.str ""))
    (h4 : List.lookup "cookie_usage" data = some (JsonValue.str "")) :
    fieldOrDefault data "data_sharing"
      "Specify if data is shared and with whom (e.g., analytics providers, payment processors)" = "" ∧
    fieldOrDefault data "security_measures"
      "Describe general security practices (e.g., encryption, access controls)" = "" ∧
    fieldOrDefault data "user_rights"
      "Mention user rights like access, correction, deletion, opt-out" = "" ∧
    fieldOrDefault data "cookie_usage"
      "Explain if cookies are used and for what purpose" = "" ∧
    ContainsStr (create_privacy_policy_prompt data)
      ("\n    *   **Data Sharing Practices (Third Parties):** "
        ++ "\n    *   **Data Security Measures:** "
        ++ "\n    *   **User Rights (e.g., access, deletion):** "
        ++ "\n    *   **Cookie Usage:** "
        ++ "\n    *   **Contact Email for Privacy Concerns:** ") ∧
    (List.lookup "jurisdiction" data = some (JsonValue.str "") →
      create_privacy_policy_prompt data = serviceDetailsBlock data ++ instructionsBlock) := by
  refine ⟨by simp [fieldOrDefault, h1, pyStr], by simp [fieldOrDefault, h2, pyStr],
    by simp [fieldOrDefault, h3, pyStr], by simp [fieldOrDefault, h4, pyStr], ?_, ?_⟩
  · apply containsStr_create_of_details
    refine ⟨"\n    Act as a helpful assistant specialized in drafting website and application documents.\n    Generate a comprehensive draft privacy policy based on the following details provided by the user.\n    The policy should be clear, easy for end-users to understand, and cover common requirements.\n    Include sections like: Introduction, Information We Collect, How We Use Your Information, Sharing Your Information, Data Security, Your Rights and Choices, Cookie Policy, Changes to This Policy, and Contact Us.\n    Emphasize that this is a generated template and should be reviewed by a legal professional before publishing.\n\n    **Service Details:**\n    *   **Company/Service Name:** "
      ++ fieldOrDefault data "company_name" "Your Company"
      ++ "\n    *   **Website/App URL:** "
      ++ fieldOrDefault data "website_url" "Your Website/App URL"
      ++ "\n    *   **Types of Personal Data Collected:** "
      ++ fieldOrDefault data "data_collected" "e.g., names, email addresses, IP addresses, cookies, usage data"
      ++ "\n    *   **How Data is Used:** "
      ++ fieldOrDefault data "data_usage" "e.g., service provision, personalization, analytics, marketing",
      fieldOrDefault data "contact_email" "your privacy contact email" ++ "\n    ", ?_⟩
    simp [serviceDetailsBlock, fieldOrDefault, h1, h2, h3, h4, pyStr,
      String.append_assoc, String.append_empty]
  · intro hj
    simp only [create_privacy_policy_prompt, jurisdictionValue, hj, Option.getD_some]
    rw [if_neg (by simp [JsonValue.isTruthy])]

/-- Witness for C10 at a concrete body supplying every optional field as
the empty string. -/
theorem create_prompt_empty_optional_interpolated_witness :
    fieldOrDefault exampleEmptyOptionalData "data_sharing"
      "Specify if data is shared and with whom (e.g., analytics providers, payment processors)" = "" ∧
    fieldOrDefault exampleEmptyOptionalData "security_measures"
      "Describe general security practices (e.g., encryption, access controls)" = "" ∧
    fieldOrDefault exampleEmptyOptionalData "user_rights"
      "Mention user rights like access, correction, deletion, opt-out" = "" ∧
    fieldOrDefault exampleEmptyOptionalData "cookie_usage"
      "Explain if cookies are used and for what purpose" = "" ∧
    ContainsStr (create_privacy_policy_prompt exampleEmptyOptionalData)
      ("\n    *   **Data Sharing Practices (Third Parties):** "
        ++ "\n    *   **Data Security Measures:** "
        ++ "\n    *   **User Rights (e.g., access, deletion):** "
        ++ "\n    *   **Cookie Usage:** "
        ++ "\n    *   **Contact Email for Privacy Concerns:** ") ∧
    create_privacy_policy_prompt exampleEmptyOptionalData
      = serviceDetailsBlock exampleEmptyOptionalData ++ instructionsBlock := by
  have h := create_prompt_empty_optional_interpolated exampleEmptyOptionalData rfl rfl rfl rfl
  exact ⟨h.1, h.2.1, h.2.2.1, h.2.2.2.1, h.2.2.2.2.1, h.2.2.2.2.2 rfl⟩
